import Mathlib

/-!
Verification of the pyNakadi client (`src/pyNakadi/client.py`) against its
natural-language specification.

The embedding is shallow: Python values that matter to the claims are
modelled as Lean data, Python exceptions as the `Except` monad, and one HTTP
exchange as an explicit `HttpResponse` value handed to the embedded
operation.  Bytes and their UTF-8 decoding are both modelled as `String`
(the repository never manipulates bytes except to decode them), so the
`decode` step is the identity and is kept explicit in the definitions that
call it.
-/

namespace PyNakadi

/-- Python exceptions that the claims exercise.
The constructor `nakadiException code msg` embeds `NakadiException(code, msg)`
(`client.py` lines 7-10); the remaining constructors embed the standard
Python exceptions the code can raise. -/
inductive PyError where
  | nakadiException (code : Int) (msg : String)
  | typeError (msg : String)
  | keyError (key : String)
  | stopIteration
  | jsonDecodeError
  | notImplementedError
deriving Repr, DecidableEq

/-- JSON values as produced by the Python `json.loads`.  Numbers are modelled
as integers: the repository never constructs or inspects fractional JSON
numbers, so the claims do not exercise them. -/
inductive PyJson where
  | null
  | bool (b : Bool)
  | num (n : Int)
  | str (s : String)
  | arr (xs : List PyJson)
  | obj (fields : List (String × PyJson))
deriving Repr, Inhabited

/-- One HTTP response as seen by the client: status code, response headers,
the body decoded as text, and the closed flag of the underlying raw
connection (`response.raw.closed`). -/
structure HttpResponse where
  status_code : Int
  headers : List (String × String)
  body : String
  rawClosed : Bool
deriving Repr, DecidableEq

/-- One HTTP request as assembled by the client before it is handed to the
`requests` library: method, URL (path plus query string), headers, and an
optional JSON body. -/
structure HttpRequest where
  method : String
  url : String
  headers : List (String × String)
  jsonBody : Option PyJson
deriving Repr

/-- ASCII-case-insensitive equality of two characters, by comparing the
lowercased code points. -/
def charLowerEq (a b : Char) : Bool :=
  let la := if 65 ≤ a.toNat ∧ a.toNat ≤ 90 then a.toNat + 32 else a.toNat
  let lb := if 65 ≤ b.toNat ∧ b.toNat ≤ 90 then b.toNat + 32 else b.toNat
  la == lb

/-- ASCII-case-insensitive equality of two character lists. -/
def charsLowerEq : List Char → List Char → Bool
  | [], [] => true
  | a :: as, b :: bs => charLowerEq a b && charsLowerEq as bs
  | _, _ => false

/-- Header lookup as done by `requests` response headers: case-insensitive
on the header name, `KeyError`-style absence reported as `none`. -/
def lookupHeader (headers : List (String × String)) (key : String) : Option String :=
  match headers.find? (fun kv => charsLowerEq kv.1.data key.data) with
  | some kv => some kv.2
  | none => none

end PyNakadi

namespace PyNakadi.Json

/-- Drop leading JSON whitespace. -/
def skipWs : List Char → List Char
  | c :: cs => if c = ' ' ∨ c = '\t' ∨ c = '\n' ∨ c = '\r' then skipWs cs else c :: cs
  | [] => []

/-- Longest digit prefix and the remainder. -/
def takeDigits : List Char → List Char × List Char
  | c :: cs =>
    if c.isDigit then
      let (ds, rest) := takeDigits cs
      (c :: ds, rest)
    else ([], c :: cs)
  | [] => ([], [])

/-- Digits to a natural number, most significant first. -/
def digitsToNat (ds : List Char) : Nat :=
  ds.foldl (fun acc c => acc * 10 + (c.toNat - 48)) 0

/-- Parse a JSON string literal after the opening quote.  Escape handling
covers the common escapes; unicode escapes are not modelled (no claim
exercises them). -/
def parseStringLit : List Char → Option (String × List Char)
  | [] => none
  | c :: cs =>
    if c = '"' then some ("", cs)
    else if c = '\\' then
      match cs with
      | [] => none
      | e :: cs' =>
        let dec : Option Char :=
          if e = '"' then some '"'
          else if e = '\\' then some '\\'
          else if e = '/' then some '/'
          else if e = 'n' then some '\n'
          else if e = 't' then some '\t'
          else if e = 'r' then some '\r'
          else none
        match dec with
        | some d =>
          match parseStringLit cs' with
          | some (s, rest) => some (String.mk (d :: s.data), rest)
          | none => none
        | none => none
    else
      match parseStringLit cs with
      | some (s, rest) => some (String.mk (c :: s.data), rest)
      | none => none

mutual

/-- Fuel-indexed recursive-descent parser for one JSON value. -/
def parseVal : Nat → List Char → Option (PyJson × List Char)
  | 0, _ => none
  | fuel + 1, cs =>
    match skipWs cs with
    | 'n' :: 'u' :: 'l' :: 'l' :: rest => some (.null, rest)
    | 't' :: 'r' :: 'u' :: 'e' :: rest => some (.bool true, rest)
    | 'f' :: 'a' :: 'l' :: 's' :: 'e' :: rest => some (.bool false, rest)
    | '"' :: rest =>
      match parseStringLit rest with
      | some (s, rest') => some (.str s, rest')
      | none => none
    | '[' :: rest => parseArrItems fuel (skipWs rest) true
    | '\x7b' :: rest => parseObjFields fuel (skipWs rest) true
    | '-' :: rest =>
      match takeDigits rest with
      | ([], _) => none
      | (ds, rest') => some (.num (-(digitsToNat ds : Int)), rest')
    | c :: rest =>
      if c.isDigit then
        match takeDigits (c :: rest) with
        | (ds, rest') => some (.num (digitsToNat ds : Int), rest')
      else none
    | [] => none

/-- Items of a JSON array after `[`; `first` is true before any item. -/
def parseArrItems : Nat → List Char → Bool → Option (PyJson × List Char)
  | 0, _, _ => none
  | _ + 1, ']' :: rest, true => some (.arr [], rest)
  | fuel + 1, cs, _ =>
    match parseVal fuel cs with
    | none => none
    | some (v, rest) =>
      match skipWs rest with
      | ',' :: rest' =>
        match parseArrItems fuel (skipWs rest') false with
        | some (.arr vs, rest'') => some (.arr (v :: vs), rest'')
        | _ => none
      | ']' :: rest' => some (.arr [v], rest')
      | _ => none

/-- Fields of a JSON object after the opening brace; `first` is true before
any field. -/
def parseObjFields : Nat → List Char → Bool → Option (PyJson × List Char)
  | 0, _, _ => none
  | _ + 1, '\x7d' :: rest, true => some (.obj [], rest)
  | fuel + 1, cs, _ =>
    match cs with
    | '"' :: cs' =>
      match parseStringLit cs' with
      | none => none
      | some (k, rest) =>
        match skipWs rest with
        | ':' :: rest' =>
          match parseVal fuel (skipWs rest') with
          | none => none
          | some (v, rest'') =>
            match skipWs rest'' with
            | ',' :: rest3 =>
              match parseObjFields fuel (skipWs rest3) false with
              | some (.obj fs, rest4) => some (.obj ((k, v) :: fs), rest4)
              | _ => none
            | '\x7d' :: rest3 => some (.obj [(k, v)], rest3)
            | _ => none
        | _ => none
    | _ => none

end

end PyNakadi.Json

namespace PyNakadi

/-- The Python `json.loads` on text: parse one JSON value and require only
whitespace after it; any failure (in particular an empty body) raises
`json.JSONDecodeError`, modelled as `none`. -/
def json_loads (s : String) : Option PyJson :=
  match Json.parseVal (s.length + 1) s.data with
  | some (v, rest) =>
    match Json.skipWs rest with
    | [] => some v
    | _ => none
  | none => none

/-! ## The stream body as a line iterator

`NakadiStream.__init__` stores `response.iter_lines(chunk_size=1)`.
the `iter_lines` method of `requests` yields each complete line of the body with its
terminating newline stripped, and finally the pending tail after the last
newline when it is non-empty; a body that ends in a newline therefore
yields exactly its newline-terminated lines, and an empty body yields
nothing. -/

/-- Split the body at newline characters, the accumulator holding the current line
reversed.  Every piece, the tail after the last newline included, is
produced; `iter_lines` then drops that tail when it is empty. -/
def splitNlAux : List Char → List Char → List String
  | [], acc => [String.mk acc.reverse]
  | c :: cs, acc =>
    if c = '\n' then String.mk acc.reverse :: splitNlAux cs []
    else splitNlAux cs (c :: acc)

/-- The sequence of lines `response.iter_lines(chunk_size=1)` yields for a
fully delivered body. -/
def iter_lines (body : String) : List String :=
  let parts := splitNlAux body.data []
  if parts.getLast? = some "" then parts.dropLast else parts

/-- Embeds `NakadiStream` (`client.py` lines 13-50): the wrapped response, the
most recently read batch, and the remaining output of the stored
`iter_lines` iterator. -/
structure NakadiStream where
  response : HttpResponse
  current_batch : Option String
  it : List String
deriving Repr, DecidableEq

/-- Embeds `NakadiStream.__init__`: store the response, set `current_batch` to
`None`, create the line iterator over the body. -/
def NakadiStream.init (response : HttpResponse) : NakadiStream :=
  { response := response
    current_batch := none
    it := iter_lines response.body }

/-- UTF-8 decoding of one line; bytes are already modelled as text, so the
decode step is the identity. -/
def utf8Decode (s : String) : String := s

/-- Embeds `NakadiStream.__next__`: pull the next line from the iterator, decode
it, cache it in `current_batch` and return it; an exhausted iterator
raises `StopIteration`. -/
def NakadiStream.next (s : NakadiStream) : Except PyError (String × NakadiStream) :=
  match s.it with
  | [] => .error .stopIteration
  | line :: rest =>
    let batch := utf8Decode line
    .ok (batch, { s with current_batch := some batch, it := rest })

/-- Embeds `NakadiStream.get_stream_id`, a subscript lookup of the header
`X-Nakadi-StreamId` on the response headers;
subscript on a missing header raises `KeyError`. -/
def NakadiStream.get_stream_id (s : NakadiStream) : Except PyError String :=
  match lookupHeader s.response.headers "X-Nakadi-StreamId" with
  | some v => .ok v
  | none => .error (.keyError "X-Nakadi-StreamId")

/-- Embeds `NakadiStream.close`, which calls close on the raw connection.
The close of the underlying HTTP library sets the closed flag and is a
no-op on an already-closed connection, so it is modelled as setting the
flag. -/
def NakadiStream.close (s : NakadiStream) : NakadiStream :=
  { s with response := { s.response with rawClosed := true } }

/-- Embeds `NakadiStream.closed`, which reads the closed flag of the raw
connection. -/
def NakadiStream.closed (s : NakadiStream) : Bool :=
  s.response.rawClosed

/-- Run `n` consecutive `next_batch()` calls: the batches returned in order and
the stream state after them, or the first exception raised. -/
def runNext : NakadiStream → Nat → Except PyError (List String × NakadiStream)
  | s, 0 => .ok ([], s)
  | s, n + 1 =>
    match s.next with
    | .error e => .error e
    | .ok (b, s') =>
      match runNext s' n with
      | .error e => .error e
      | .ok (bs, s'') => .ok (b :: bs, s'')

/-- A body made of exactly the given lines, each newline-terminated. -/
def joinNL : List String → String
  | [] => ""
  | l :: ls => l ++ "\n" ++ joinNL ls

/-! ## Transport operations

Each operation of `NakadiClient` is embedded as a function from its
parameters and the `HttpResponse` the broker answers with, to the request
it assembles (when a claim inspects it) and the Python outcome of the
response-handling code.  Each follows its source method line by line. -/

/-- Embeds `NakadiClient.authorization_header` combined with
`NakadiClient.json_content_header` as used by write operations. -/
def authJsonHeaders (token : String) : List (String × String) :=
  [("Authorization", "Bearer " ++ token), ("Content-type", "application/json")]

/-- Embeds `NakadiClient.authorization_header` alone, as used by read and
delete operations. -/
def authHeaders (token : String) : List (String × String) :=
  [("Authorization", "Bearer " ++ token)]

/-- Embeds `NakadiClient.get_event_types` (`client.py` lines 98-115):
GET `/event-types`, accepted statuses `[200]`, on failure raise
`NakadiException` with the status code and a message embedding the raw
body, on success decode the body as JSON. -/
def get_event_types (token nakadi_url : String) (resp : HttpResponse) :
    HttpRequest × Except PyError PyJson :=
  let headers := authJsonHeaders token
  let page := nakadi_url ++ "/event-types"
  let req : HttpRequest :=
    { method := "GET", url := page, headers := headers, jsonBody := none }
  let response_content_str := utf8Decode resp.body
  let result : Except PyError PyJson :=
    if resp.status_code ∈ [(200 : Int)] then
      match json_loads response_content_str with
      | some v => .ok v
      | none => .error .jsonDecodeError
    else
      .error (.nakadiException resp.status_code
        ("Error during get_event_types. Message from server:"
          ++ toString resp.status_code ++ " " ++ response_content_str))
  (req, result)

/-- Embeds `NakadiClient.create_subscription` (`client.py` lines 391-410):
POST `/subscriptions`, accepted statuses `[200, 201]`. -/
def create_subscription (token nakadi_url : String)
    (subscription_data_map : PyJson) (resp : HttpResponse) :
    HttpRequest × Except PyError PyJson :=
  let headers := authJsonHeaders token
  let page := nakadi_url ++ "/subscriptions"
  let req : HttpRequest :=
    { method := "POST", url := page, headers := headers,
      jsonBody := some subscription_data_map }
  let response_content_str := utf8Decode resp.body
  let result : Except PyError PyJson :=
    if resp.status_code ∈ [(200 : Int), 201] then
      match json_loads response_content_str with
      | some v => .ok v
      | none => .error .jsonDecodeError
    else
      .error (.nakadiException resp.status_code
        ("Error during create_subscription. Message from server:"
          ++ toString resp.status_code ++ " " ++ response_content_str))
  (req, result)

/-- Embeds `NakadiClient.delete_subscription` (`client.py` lines 432-450):
DELETE `/subscriptions/{subscription_id}`, accepted statuses `[204]`; the
source then runs `json.loads` on the response body even on the accepted
204 path and returns its result. -/
def delete_subscription (token nakadi_url subscription_id : String)
    (resp : HttpResponse) : HttpRequest × Except PyError PyJson :=
  let headers := authHeaders token
  let page := nakadi_url ++ "/subscriptions/" ++ subscription_id
  let req : HttpRequest :=
    { method := "DELETE", url := page, headers := headers, jsonBody := none }
  let response_content_str := utf8Decode resp.body
  let result : Except PyError PyJson :=
    if resp.status_code ∈ [(204 : Int)] then
      match json_loads response_content_str with
      | some v => .ok v
      | none => .error .jsonDecodeError
    else
      .error (.nakadiException resp.status_code
        ("Error during delete_subscription. Message from server:"
          ++ toString resp.status_code ++ " " ++ response_content_str))
  (req, result)

/-- Embeds `NakadiClient.commit_subscription_cursors` (`client.py` lines
541-564): POST `/subscriptions/{subscription_id}/cursors` with JSON body
`{"items": cursors}` and the `X-Nakadi-StreamId` header, accepted statuses
`[204]`, returning `True` on success. -/
def commit_subscription_cursors (token nakadi_url subscription_id stream_id : String)
    (cursors : List PyJson) (resp : HttpResponse) :
    HttpRequest × Except PyError Bool :=
  let headers := authJsonHeaders token ++ [("X-Nakadi-StreamId", stream_id)]
  let page := nakadi_url ++ "/subscriptions/" ++ subscription_id ++ "/cursors"
  let cursors_data := PyJson.obj [("items", PyJson.arr cursors)]
  let req : HttpRequest :=
    { method := "POST", url := page, headers := headers,
      jsonBody := some cursors_data }
  let response_content_str := utf8Decode resp.body
  let result : Except PyError Bool :=
    if resp.status_code ∈ [(204 : Int)] then .ok true
    else
      .error (.nakadiException resp.status_code
        ("Error during commit_subscription_cursors. Message from server:"
          ++ toString resp.status_code ++ " " ++ response_content_str))
  (req, result)

/-- Embeds `NakadiClient.assert_it` (`client.py` lines 82-85): raise the
given exception when the condition fails. -/
def assert_it (condition : Bool) (exception : PyError) : Except PyError Unit :=
  if condition then .ok () else .error exception

/-- Embeds the expression `NakadiException(x)` with a single positional
argument, as written at `client.py` lines 361-363.  The constructor
signature is `__init__(self, code, msg)` with no defaults, so Python
rejects the call with a `TypeError` before any `NakadiException` instance
exists. -/
def NakadiException_one_arg (x : String) : Except PyError PyError :=
  .error (.typeError
    "NakadiException.__init__ missing 1 required positional argument: msg")

/-- Embeds `NakadiClient.get_subscriptions` (`client.py` lines 350-383).
Python evaluates the arguments of each `assert_it` call before entering
it, so each `NakadiException(...)` single-argument construction is
evaluated first and raises; everything from the first validation on is
faithful to the source but unreachable. -/
def get_subscriptions (token nakadi_url : String)
    (owning_application : Option String) (event_type : Option (List String))
    (limit offset : Int) (resp : HttpResponse) : Except PyError PyJson := do
  let e1 ← NakadiException_one_arg "limit must be >=1"
  assert_it (decide (limit ≥ 1)) e1
  let e2 ← NakadiException_one_arg "limit must be <=1000"
  assert_it (decide (limit ≤ 1000)) e2
  let e3 ← NakadiException_one_arg "offset must be >=0"
  assert_it (decide (offset ≥ 0)) e3
  let query_str := "?limit=" ++ toString limit ++ "&offset=" ++ toString offset
  let query_str :=
    match owning_application with
    | some oa => query_str ++ "&owning_application=" ++ oa
    | none => query_str
  let query_str :=
    match event_type with
    | some items =>
      query_str ++ items.foldl (fun reduced item => reduced ++ "&event_type=" ++ item) ""
    | none => query_str
  let _page := nakadi_url ++ "/subscriptions" ++ query_str
  let response_content_str := utf8Decode resp.body
  if resp.status_code ∈ [(200 : Int)] then
    match json_loads response_content_str with
    | some v => .ok v
    | none => .error .jsonDecodeError
  else
    .error (.nakadiException resp.status_code
      ("Error during get_subscriptions. Message from server:"
        ++ toString resp.status_code ++ " " ++ response_content_str))

/-! ## Stream-opening query strings

The two stream-opening methods build their query string by concatenating
one `&name=value` fragment per parameter that is not `None`, then append
`'?' + query_str[1:]` to the page when the string is non-empty.  `none`
embeds the Python `None` omission sentinel. -/

/-- Embeds the query-string construction of
`NakadiClient.get_subscription_events_stream` (`client.py` lines 474-490).
The `batch_limit` branch of the source assigns (`query_str = ...` with a
leading question mark) instead of appending, exactly as written. -/
def get_subscription_events_stream_query
    (max_uncommitted_events batch_limit stream_limit batch_flush_timeout
      stream_timeout stream_keep_alive_limit : Option Int) : String :=
  let query_str := ""
  let query_str :=
    match max_uncommitted_events with
    | some v => query_str ++ "&max_uncommitted_events=" ++ toString v
    | none => query_str
  let query_str :=
    match batch_limit with
    | some v => "?batch_limit=" ++ toString v
    | none => query_str
  let query_str :=
    match stream_limit with
    | some v => query_str ++ "&stream_limit=" ++ toString v
    | none => query_str
  let query_str :=
    match batch_flush_timeout with
    | some v => query_str ++ "&batch_flush_timeout=" ++ toString v
    | none => query_str
  let query_str :=
    match stream_timeout with
    | some v => query_str ++ "&stream_timeout=" ++ toString v
    | none => query_str
  let query_str :=
    match stream_keep_alive_limit with
    | some v => query_str ++ "&stream_keep_alive_limit=" ++ toString v
    | none => query_str
  query_str

/-- Embeds the URL assembled by
`NakadiClient.get_subscription_events_stream`: the page plus
`'?' + query_str[1:]` when the query string is non-empty. -/
def get_subscription_events_stream_url (nakadi_url subscription_id : String)
    (max_uncommitted_events batch_limit stream_limit batch_flush_timeout
      stream_timeout stream_keep_alive_limit : Option Int) : String :=
  let page := nakadi_url ++ "/subscriptions/" ++ subscription_id ++ "/events"
  let query_str := get_subscription_events_stream_query max_uncommitted_events
    batch_limit stream_limit batch_flush_timeout stream_timeout
    stream_keep_alive_limit
  if query_str ≠ "" then page ++ "?" ++ query_str.drop 1 else page

/-- Embeds the query-string construction of
`NakadiClient.get_event_type_events_stream` (`client.py` lines 284-297);
the first branch assigns rather than appends, on an empty string, so the
fragments all accumulate. -/
def get_event_type_events_stream_query
    (batch_limit stream_limit batch_flush_timeout stream_timeout
      stream_keep_alive_limit : Option Int) : String :=
  let query_str := ""
  let query_str :=
    match batch_limit with
    | some v => "&batch_limit=" ++ toString v
    | none => query_str
  let query_str :=
    match stream_limit with
    | some v => query_str ++ "&stream_limit=" ++ toString v
    | none => query_str
  let query_str :=
    match batch_flush_timeout with
    | some v => query_str ++ "&batch_flush_timeout=" ++ toString v
    | none => query_str
  let query_str :=
    match stream_timeout with
    | some v => query_str ++ "&stream_timeout=" ++ toString v
    | none => query_str
  let query_str :=
    match stream_keep_alive_limit with
    | some v => query_str ++ "&stream_keep_alive_limit=" ++ toString v
    | none => query_str
  query_str

/-- Embeds the URL assembled by
`NakadiClient.get_event_type_events_stream`. -/
def get_event_type_events_stream_url (nakadi_url event_name : String)
    (batch_limit stream_limit batch_flush_timeout stream_timeout
      stream_keep_alive_limit : Option Int) : String :=
  let page := nakadi_url ++ "/event-types/" ++ event_name ++ "/events"
  let query_str := get_event_type_events_stream_query batch_limit stream_limit
    batch_flush_timeout stream_timeout stream_keep_alive_limit
  if query_str ≠ "" then page ++ "?" ++ query_str.drop 1 else page

/-- The Python default argument values of
`NakadiClient.get_event_type_events_stream` (`client.py` lines 260-267). -/
def batch_limit_default : Option Int := some 1

/-- Default of `stream_limit` in `get_event_type_events_stream`. -/
def stream_limit_default : Option Int := some 0

/-- Default of `batch_flush_timeout` in `get_event_type_events_stream`. -/
def batch_flush_timeout_default : Option Int := some 30

/-- Default of `stream_timeout` in `get_event_type_events_stream`. -/
def stream_timeout_default : Option Int := some 0

/-- Default of `stream_keep_alive_limit` in
`get_event_type_events_stream`. -/
def stream_keep_alive_limit_default : Option Int := some 0

/-- Does `pat` occur as a contiguous run somewhere in `s`? -/
def containsRun : List Char → List Char → Bool
  | s, pat =>
    if List.isPrefixOf pat s then true
    else
      match s with
      | [] => false
      | _ :: rest => containsRun rest pat

/-- Boolean substring test, for statements about query strings. -/
def strContains (s pat : String) : Bool :=
  containsRun s.data pat.data

/-- Embeds `NakadiClient.get_next_subscriptions` (`client.py` lines
385-386): the body is a bare `raise NotImplementedError`; no request is
assembled (reflected by the absence of an `HttpRequest` in the result
type). -/
def get_next_subscriptions (subscriptions_response : PyJson) :
    Except PyError PyJson :=
  .error .notImplementedError

/-- Embeds `NakadiClient.get_prev_subscriptions` (`client.py` lines
388-389): likewise a bare `raise NotImplementedError`. -/
def get_prev_subscriptions (subscriptions_response : PyJson) :
    Except PyError PyJson :=
  .error .notImplementedError

/-- One string occurs inside another. -/
def containsStr (s pat : String) : Prop :=
  ∃ pre post, s = pre ++ pat ++ post

/-- An operation outcome is the raise of a `NakadiException` whose code is
`code` and whose message embeds `body`. -/
def raisesBrokerError {α : Type} (r : Except PyError α) (code : Int)
    (body : String) : Prop :=
  ∃ m, r = .error (.nakadiException code m) ∧ containsStr m body

/-- An operation outcome is anything but the raise of a
`NakadiException`. -/
def noBrokerError {α : Type} (r : Except PyError α) : Prop :=
  ∀ c m, r ≠ .error (.nakadiException c m)

end PyNakadi

namespace PyNakadi

/-! ## Helper lemmas -/

lemma mk_data (s : String) : String.mk s.data = s := by
  cases s
  rfl

lemma containsStr_append (a b : String) : containsStr (a ++ b) b :=
  ⟨a, "", (String.append_empty (a ++ b)).symm⟩

lemma splitNlAux_line (l : List Char) (h : '\n' ∉ l) (rest acc : List Char) :
    splitNlAux (l ++ '\n' :: rest) acc
      = String.mk (acc.reverse ++ l) :: splitNlAux rest [] := by
  induction l generalizing acc with
  | nil => simp [splitNlAux]
  | cons c cs ih =>
    have hc : ¬ c = '\n' := by
      intro hceq
      exact h (hceq ▸ List.mem_cons_self c cs)
    have hcs : '\n' ∉ cs := fun hm => h (List.mem_cons_of_mem c hm)
    simp only [List.cons_append, splitNlAux, if_neg hc, List.append_eq]
    rw [ih hcs]
    simp

lemma splitNlAux_joinNL (lines : List String)
    (h : ∀ l ∈ lines, '\n' ∉ l.data) :
    splitNlAux (joinNL lines).data [] = lines ++ [""] := by
  induction lines with
  | nil => rfl
  | cons l ls ih =>
    have hdata : (joinNL (l :: ls)).data = l.data ++ '\n' :: (joinNL ls).data := by
      show ((l ++ "\n") ++ joinNL ls).data = _
      simp [String.data_append]
    rw [hdata, splitNlAux_line l.data (h l (List.mem_cons_self l ls)) _ []]
    rw [ih (fun x hx => h x (List.mem_cons_of_mem l hx))]
    simp [mk_data]

lemma iter_lines_joinNL (lines : List String)
    (h : ∀ l ∈ lines, '\n' ∉ l.data) :
    iter_lines (joinNL lines) = lines := by
  unfold iter_lines
  rw [splitNlAux_joinNL lines h]
  rw [if_pos (List.getLast?_concat lines)]
  exact List.dropLast_concat

lemma get_event_types_error (token nakadi_url : String) (resp : HttpResponse)
    (h : resp.status_code ∉ ([200] : List Int)) :
    raisesBrokerError (get_event_types token nakadi_url resp).2
      resp.status_code resp.body := by
  simp only [List.mem_singleton] at h
  refine ⟨"Error during get_event_types. Message from server:"
      ++ toString resp.status_code ++ " " ++ utf8Decode resp.body, ?_, ?_⟩
  · simp [get_event_types, h]
  · exact containsStr_append _ resp.body

lemma get_event_types_ok (token nakadi_url : String) (resp : HttpResponse)
    (h : resp.status_code ∈ ([200] : List Int)) :
    noBrokerError (get_event_types token nakadi_url resp).2 := by
  simp only [List.mem_singleton] at h
  intro c m
  cases hj : json_loads (utf8Decode resp.body) <;>
    simp [get_event_types, h, hj]

lemma create_subscription_error (token nakadi_url : String) (sub : PyJson)
    (resp : HttpResponse) (h : resp.status_code ∉ ([200, 201] : List Int)) :
    raisesBrokerError (create_subscription token nakadi_url sub resp).2
      resp.status_code resp.body := by
  simp only [List.mem_cons, List.mem_singleton, not_or] at h
  refine ⟨"Error during create_subscription. Message from server:"
      ++ toString resp.status_code ++ " " ++ utf8Decode resp.body, ?_, ?_⟩
  · simp [create_subscription, h.1, h.2]
  · exact containsStr_append _ resp.body

lemma create_subscription_ok (token nakadi_url : String) (sub : PyJson)
    (resp : HttpResponse) (h : resp.status_code ∈ ([200, 201] : List Int)) :
    noBrokerError (create_subscription token nakadi_url sub resp).2 := by
  simp only [List.mem_cons, List.not_mem_nil, or_false] at h
  intro c m
  cases hj : json_loads (utf8Decode resp.body) <;>
    rcases h with h | h <;> simp [create_subscription, h, hj]

lemma delete_subscription_error (token nakadi_url sid : String)
    (resp : HttpResponse) (h : resp.status_code ∉ ([204] : List Int)) :
    raisesBrokerError (delete_subscription token nakadi_url sid resp).2
      resp.status_code resp.body := by
  simp only [List.mem_singleton] at h
  refine ⟨"Error during delete_subscription. Message from server:"
      ++ toString resp.status_code ++ " " ++ utf8Decode resp.body, ?_, ?_⟩
  · simp [delete_subscription, h]
  · exact containsStr_append _ resp.body

lemma delete_subscription_ok (token nakadi_url sid : String)
    (resp : HttpResponse) (h : resp.status_code ∈ ([204] : List Int)) :
    noBrokerError (delete_subscription token nakadi_url sid resp).2 := by
  simp only [List.mem_singleton] at h
  intro c m
  cases hj : json_loads (utf8Decode resp.body) <;>
    simp [delete_subscription, h, hj]

lemma commit_cursors_error (token nakadi_url sid stream_id : String)
    (cursors : List PyJson) (resp : HttpResponse)
    (h : resp.status_code ∉ ([204] : List Int)) :
    raisesBrokerError
      (commit_subscription_cursors token nakadi_url sid stream_id cursors resp).2
      resp.status_code resp.body := by
  simp only [List.mem_singleton] at h
  refine ⟨"Error during commit_subscription_cursors. Message from server:"
      ++ toString resp.status_code ++ " " ++ utf8Decode resp.body, ?_, ?_⟩
  · simp [commit_subscription_cursors, h]
  · exact containsStr_append _ resp.body

lemma commit_cursors_ok (token nakadi_url sid stream_id : String)
    (cursors : List PyJson) (resp : HttpResponse)
    (h : resp.status_code ∈ ([204] : List Int)) :
    noBrokerError
      (commit_subscription_cursors token nakadi_url sid stream_id cursors resp).2 := by
  simp only [List.mem_singleton] at h
  intro c m
  simp [commit_subscription_cursors, h]

lemma runNext_exact (L : List String) :
    ∀ s : NakadiStream, s.it = L →
      ∃ s', runNext s L.length = .ok (L, s') ∧ s'.it = [] := by
  induction L with
  | nil =>
    intro s hs
    exact ⟨s, by simp [runNext], hs⟩
  | cons b bs ih =>
    intro s hs
    have hnext : s.next = .ok (b, { s with current_batch := some b, it := bs }) := by
      simp [NakadiStream.next, hs, utf8Decode]
    obtain ⟨s', h1, h2⟩ := ih { s with current_batch := some b, it := bs } rfl
    refine ⟨s', ?_, h2⟩
    simp [runNext, hnext, h1]

/-! ## Claims -/

/-- C1: for every stream session opened over a body consisting of N
newline-terminated lines, N consecutive next_batch calls return those
lines in order as decoded text, and the next call raises StopIteration
(end-of-stream) rather than returning a value. -/
theorem C1_stream_yields_lines_in_order (lines : List String)
    (resp : HttpResponse) (hbody : resp.body = joinNL lines)
    (hnl : ∀ l ∈ lines, '\n' ∉ l.data) :
    ∃ s', runNext (NakadiStream.init resp) lines.length = .ok (lines, s') ∧
      s'.next = .error .stopIteration := by
  have hit : (NakadiStream.init resp).it = lines := by
    simp [NakadiStream.init, hbody, iter_lines_joinNL lines hnl]
  obtain ⟨s', h1, h2⟩ := runNext_exact lines _ hit
  refine ⟨s', h1, ?_⟩
  simp [NakadiStream.next, h2]

/-- Witness for C1 at a concrete three-line body. -/
theorem C1_witness :
    ∃ s', runNext (NakadiStream.init ⟨200, [], "[1]\n[2]\n[3]\n", false⟩) 3
        = .ok (["[1]", "[2]", "[3]"], s') ∧
      s'.next = .error .stopIteration :=
  C1_stream_yields_lines_in_order ["[1]", "[2]", "[3]"]
    ⟨200, [], "[1]\n[2]\n[3]\n", false⟩ rfl (by decide)

/-- C2: for each transport operation (shown for get_event_types,
create_subscription, delete_subscription and commit_subscription_cursors,
with accepted status sets [200], [200, 201], [204] and [204]): a response
status outside the accepted set raises NakadiException carrying exactly
that status code and a message containing the raw body, while a status
inside the accepted set raises no NakadiException. -/
theorem C2_status_outside_accepted_raises
    (token nakadi_url sid stream_id : String) (sub : PyJson)
    (cursors : List PyJson) (resp : HttpResponse) :
    ((resp.status_code ∉ ([200] : List Int) →
        raisesBrokerError (get_event_types token nakadi_url resp).2
          resp.status_code resp.body) ∧
      (resp.status_code ∈ ([200] : List Int) →
        noBrokerError (get_event_types token nakadi_url resp).2)) ∧
    ((resp.status_code ∉ ([200, 201] : List Int) →
        raisesBrokerError (create_subscription token nakadi_url sub resp).2
          resp.status_code resp.body) ∧
      (resp.status_code ∈ ([200, 201] : List Int) →
        noBrokerError (create_subscription token nakadi_url sub resp).2)) ∧
    ((resp.status_code ∉ ([204] : List Int) →
        raisesBrokerError (delete_subscription token nakadi_url sid resp).2
          resp.status_code resp.body) ∧
      (resp.status_code ∈ ([204] : List Int) →
        noBrokerError (delete_subscription token nakadi_url sid resp).2)) ∧
    ((resp.status_code ∉ ([204] : List Int) →
        raisesBrokerError
          (commit_subscription_cursors token nakadi_url sid stream_id cursors resp).2
          resp.status_code resp.body) ∧
      (resp.status_code ∈ ([204] : List Int) →
        noBrokerError
          (commit_subscription_cursors token nakadi_url sid stream_id cursors resp).2)) :=
  ⟨⟨get_event_types_error token nakadi_url resp,
      get_event_types_ok token nakadi_url resp⟩,
    ⟨create_subscription_error token nakadi_url sub resp,
      create_subscription_ok token nakadi_url sub resp⟩,
    ⟨delete_subscription_error token nakadi_url sid resp,
      delete_subscription_ok token nakadi_url sid resp⟩,
    ⟨commit_cursors_error token nakadi_url sid stream_id cursors resp,
      commit_cursors_ok token nakadi_url sid stream_id cursors resp⟩⟩

/-- Witness for C2: a 404 with body boom on get_event_types raises
NakadiException with code 404 and the body inside the message, and a 204
commit raises no NakadiException. -/
theorem C2_witness :
    raisesBrokerError
      (get_event_types "tok" "http://n" ⟨404, [], "boom", false⟩).2 404 "boom" ∧
    noBrokerError
      (commit_subscription_cursors "tok" "http://n" "sub1" "sid1" []
        ⟨204, [], "", false⟩).2 :=
  ⟨(C2_status_outside_accepted_raises "tok" "http://n" "sub1" "sid1" .null []
      ⟨404, [], "boom", false⟩).1.1 (by decide),
    (C2_status_outside_accepted_raises "tok" "http://n" "sub1" "sid1" .null []
      ⟨204, [], "", false⟩).2.2.2.2 (by decide)⟩

/-- C3, counterexample: over a 200 response that carries no
X-Nakadi-StreamId header, stream_id() evaluates to a raised KeyError — the
call crashes instead of returning with an absence signal, so the claim as
stated is false. -/
theorem C3_counterexample :
    (NakadiStream.init
        ⟨200, [("Content-Type", "application/octet-stream")], "", false⟩).get_stream_id
      = .error (.keyError "X-Nakadi-StreamId") := rfl

/-- C3, amended: for every session whose response carries no
X-Nakadi-StreamId header, stream_id() raises a KeyError naming the missing
header rather than returning a value. -/
theorem C3_amended_keyerror (s : NakadiStream)
    (h : lookupHeader s.response.headers "X-Nakadi-StreamId" = none) :
    s.get_stream_id = .error (.keyError "X-Nakadi-StreamId") := by
  simp [NakadiStream.get_stream_id, h]

/-- Witness for the amended C3. -/
theorem C3_amended_witness :
    (NakadiStream.init ⟨200, [], "", false⟩).get_stream_id
      = .error (.keyError "X-Nakadi-StreamId") :=
  C3_amended_keyerror _ rfl

/-- C4: evaluation of the defect — when max_uncommitted_events and
batch_limit are both supplied, the assignment in the batch_limit branch
discards the already-serialized max_uncommitted_events fragment, so the
supplied parameter is missing from the URL; supplied alone it is
serialized. -/
theorem C4_batch_limit_overwrites_query :
    get_subscription_events_stream_url "http://nakadi" "sub1" (some 5) (some 2)
        none none none none
      = "http://nakadi/subscriptions/sub1/events?batch_limit=2" ∧
    strContains (get_subscription_events_stream_query (some 5) (some 2)
        none none none none) "max_uncommitted_events" = false ∧
    get_subscription_events_stream_url "http://nakadi" "sub1" (some 5) none
        none none none none
      = "http://nakadi/subscriptions/sub1/events?max_uncommitted_events=5" :=
  ⟨by decide, by decide, by decide⟩

/-- C5, counterexample: the Python default of batch_flush_timeout in
get_event_type_events_stream is 30, not 0, and the all-defaults query
string carries batch_flush_timeout=30. -/
theorem C5_counterexample :
    batch_flush_timeout_default ≠ some 0 ∧
    batch_flush_timeout_default = some 30 ∧
    strContains (get_event_type_events_stream_query batch_limit_default
        stream_limit_default batch_flush_timeout_default stream_timeout_default
        stream_keep_alive_limit_default) "batch_flush_timeout=0" = false ∧
    strContains (get_event_type_events_stream_query batch_limit_default
        stream_limit_default batch_flush_timeout_default stream_timeout_default
        stream_keep_alive_limit_default) "batch_flush_timeout=30" = true :=
  ⟨by decide, rfl, by decide, by decide⟩

/-- C5, amended: batch_limit defaults to 1; stream_limit, stream_timeout
and stream_keep_alive_limit default to 0; batch_flush_timeout defaults to
30; and every parameter not set to the omit sentinel None is serialized
onto the query string with its (default or supplied) value. -/
theorem C5_amended_defaults (bl sl bft st skal : Int) :
    get_event_type_events_stream_query (some bl) (some sl) (some bft)
        (some st) (some skal)
      = "&batch_limit=" ++ toString bl ++ "&stream_limit=" ++ toString sl
        ++ "&batch_flush_timeout=" ++ toString bft
        ++ "&stream_timeout=" ++ toString st
        ++ "&stream_keep_alive_limit=" ++ toString skal ∧
    batch_limit_default = some 1 ∧ stream_limit_default = some 0 ∧
    batch_flush_timeout_default = some 30 ∧ stream_timeout_default = some 0 ∧
    stream_keep_alive_limit_default = some 0 ∧
    get_event_type_events_stream_url "http://nakadi" "order_event"
        batch_limit_default stream_limit_default batch_flush_timeout_default
        stream_timeout_default stream_keep_alive_limit_default
      = "http://nakadi/event-types/order_event/events?batch_limit=1&stream_limit=0&batch_flush_timeout=30&stream_timeout=0&stream_keep_alive_limit=0" :=
  ⟨rfl, rfl, rfl, rfl, rfl, rfl, by decide⟩

/-- C6: evaluation of the defect — every call of get_subscriptions, valid
bounds (limit=20, offset=0) and invalid bounds (limit=0) alike, raises
TypeError while eagerly constructing NakadiException with a single
argument, before any validation outcome and independent of any response;
no NakadiException carrying code and message is ever raised. -/
theorem C6_get_subscriptions_always_typeerror :
    get_subscriptions "tok" "http://n" none none 20 0 ⟨200, [], "[]", false⟩
      = .error (.typeError
          "NakadiException.__init__ missing 1 required positional argument: msg") ∧
    get_subscriptions "tok" "http://n" none none 0 0 ⟨200, [], "[]", false⟩
      = .error (.typeError
          "NakadiException.__init__ missing 1 required positional argument: msg") ∧
    ∀ (token nakadi_url : String) (oa : Option String)
      (et : Option (List String)) (limit offset : Int) (resp : HttpResponse),
      get_subscriptions token nakadi_url oa et limit offset resp
        = .error (.typeError
            "NakadiException.__init__ missing 1 required positional argument: msg") :=
  ⟨rfl, rfl, fun _ _ _ _ _ _ _ => rfl⟩

/-- C7: commit_subscription_cursors issues a POST whose JSON body is the
object with single field items holding the cursor list and whose headers
carry the given stream id under X-Nakadi-StreamId; it returns True exactly
when the response status is 204 and raises NakadiException carrying the
status code for any other status. -/
theorem C7_commit_request_and_statuses
    (token nakadi_url subscription_id stream_id : String)
    (cursors : List PyJson) (resp : HttpResponse) :
    (commit_subscription_cursors token nakadi_url subscription_id stream_id
        cursors resp).1.method = "POST" ∧
    (commit_subscription_cursors token nakadi_url subscription_id stream_id
        cursors resp).1.url
      = nakadi_url ++ "/subscriptions/" ++ subscription_id ++ "/cursors" ∧
    (commit_subscription_cursors token nakadi_url subscription_id stream_id
        cursors resp).1.jsonBody
      = some (PyJson.obj [("items", PyJson.arr cursors)]) ∧
    lookupHeader (commit_subscription_cursors token nakadi_url subscription_id
        stream_id cursors resp).1.headers "X-Nakadi-StreamId" = some stream_id ∧
    ((commit_subscription_cursors token nakadi_url subscription_id stream_id
        cursors resp).2 = .ok true ↔ resp.status_code = 204) ∧
    (resp.status_code ≠ 204 →
      ∃ m, (commit_subscription_cursors token nakadi_url subscription_id
          stream_id cursors resp).2
        = .error (.nakadiException resp.status_code m)) := by
  refine ⟨rfl, rfl, rfl, rfl, ?_, ?_⟩
  · constructor
    · intro hok
      by_contra hne
      simp [commit_subscription_cursors, List.mem_singleton, hne] at hok
    · intro h204
      simp [commit_subscription_cursors, List.mem_singleton, h204]
  · intro hne
    refine ⟨"Error during commit_subscription_cursors. Message from server:"
        ++ toString resp.status_code ++ " " ++ utf8Decode resp.body, ?_⟩
    simp [commit_subscription_cursors, List.mem_singleton, hne]

/-- Witness for C7: a 204 commit succeeds with the stream id on the header,
a 409 commit raises NakadiException with code 409. -/
theorem C7_witness :
    (commit_subscription_cursors "tok" "http://n" "sub1" "sid1"
        [PyJson.str "c1"] ⟨204, [], "", false⟩).2 = .ok true ∧
    lookupHeader (commit_subscription_cursors "tok" "http://n" "sub1" "sid1"
        [PyJson.str "c1"] ⟨204, [], "", false⟩).1.headers "X-Nakadi-StreamId"
      = some "sid1" ∧
    ∃ m, (commit_subscription_cursors "tok" "http://n" "sub1" "sid1"
        [PyJson.str "c1"] ⟨409, [], "conflict", false⟩).2
      = .error (.nakadiException 409 m) :=
  ⟨((C7_commit_request_and_statuses "tok" "http://n" "sub1" "sid1"
        [PyJson.str "c1"] ⟨204, [], "", false⟩).2.2.2.2.1).mpr rfl,
    (C7_commit_request_and_statuses "tok" "http://n" "sub1" "sid1"
        [PyJson.str "c1"] ⟨204, [], "", false⟩).2.2.2.1,
    (C7_commit_request_and_statuses "tok" "http://n" "sub1" "sid1"
        [PyJson.str "c1"] ⟨409, [], "conflict", false⟩).2.2.2.2.2 (by decide)⟩

/-- C8: evaluation of the defect — delete_subscription accepts exactly
status 204, whose response is body-less, yet still runs json.loads on the
body: json.loads of the empty string fails, so the call raises
JSONDecodeError instead of returning a success marker. -/
theorem C8_delete_decodes_empty_body :
    json_loads "" = none ∧
    (delete_subscription "tok" "http://n" "sub1" ⟨204, [], "", false⟩).2
      = .error .jsonDecodeError :=
  ⟨rfl, rfl⟩

/-- C9: close() followed by closed() reports true, and close() is
idempotent — a second close() is the identity on the already-closed
session (and, being a total function of the state, raises nothing). -/
theorem C9_close_idempotent (s : NakadiStream) :
    (s.close).closed = true ∧ s.close.close = s.close :=
  ⟨rfl, rfl⟩

/-- C10: get_next_subscriptions and get_prev_subscriptions unconditionally
raise NotImplementedError for every input; their embedding carries no
request because the source assembles none, and no result value is ever
produced. -/
theorem C10_pagination_not_implemented (r : PyJson) :
    get_next_subscriptions r = .error .notImplementedError ∧
    get_prev_subscriptions r = .error .notImplementedError :=
  ⟨rfl, rfl⟩

end PyNakadi
